import Mathlib

/-!
Shallow embedding of the fhir-vitals-dashboard application (`src/app.py`)
for verification of its specification.

The embedding covers the normalization / classification pipeline:
the threshold table `THRESHOLDS`, the code registry `VITAL_CODES`,
the record parser `parse_observation`, the main processing loop
(`normalize`), the classifier `determine_status`, and the fetcher
`fetch_fhir_observations` together with the "Fetch Data" button handler.

Conventions of the embedding:
* Python dict access `d.get(k)` on an optional field becomes an
  `Option`-valued structure field; `d.get(k, default)` becomes
  `Option.getD`.
* Python numeric values are modelled as `ℚ` (the code only compares and
  copies them; no float-specific behaviour is exercised).
* Python `datetime` instants are modelled as `ℤ` (seconds since the
  Unix epoch); `datetime.fromisoformat` is modelled by the executable
  `fromisoformat` below, covering the ISO-8601 subset this application
  exchanges; a string it rejects models a `ValueError`.
* The bare `except Exception` in `parse_observation` means any raising
  sub-step yields `none` for the whole record.  The one reachable raising
  sub-step besides timestamp parsing is the `[0]` index into an
  explicitly-empty component `coding` list, modelled with `Except`.
* Input shapes whose fields have the wrong JSON type would raise inside
  the `try` block and are therefore equivalent to `none`; the typed
  structures below represent the shapes that do not raise before the
  points the source inspects.
-/

namespace VitalsApp

/-- One element of a FHIR `coding` list: the code reads only its
`code` key (`coding.get('code')`). -/
structure Coding where
  code : Option String
deriving Repr, DecidableEq

/-- A FHIR `code` field: the code reads only its `coding` key. -/
structure CodeField where
  coding : Option (List Coding)
deriving Repr, DecidableEq

/-- A FHIR `effectivePeriod` field: the code reads only its `start` key. -/
structure Pd where
  start : Option String
deriving Repr, DecidableEq

/-- A FHIR `valueQuantity` field: keys `value` and `unit`. -/
structure ValueQuantity where
  value : Option ℚ
  unit : Option String
deriving Repr, DecidableEq

/-- One element of a FHIR `component` list. -/
structure Component where
  code : Option CodeField
  valueQuantity : Option ValueQuantity
deriving Repr, DecidableEq

/-- A FHIR `Observation` resource, restricted to the keys
`parse_observation` reads. -/
structure Observation where
  id : Option String
  resourceType : Option String
  effectiveDateTime : Option String
  effectivePeriod : Option Pd
  code : Option CodeField
  valueQuantity : Option ValueQuantity
  component : Option (List Component)
deriving Repr, DecidableEq

/-- One element of a bundle's `entry` list (`entry.get('resource', {})`). -/
structure Entry where
  resource : Option Observation
deriving Repr, DecidableEq

/-- A FHIR bundle as the main loop reads it: its `entry` list, plus a
flag recording whether the underlying dict has any key other than
`entry` (this is only needed to model Python dict truthiness at the
`if bundle:` check in the Fetch Data handler). -/
structure Bundle where
  entry : Option (List Entry)
  otherKeys : Bool
deriving Repr, DecidableEq

/-- One row of the normalized table appended by `parse_observation`
(dict with keys `id`, `date`, `vital_type`, `value`, `unit`). -/
structure Reading where
  id : String
  date : ℤ
  vital_type : String
  value : ℚ
  unit : String
deriving Repr, DecidableEq

/-- One value of the `THRESHOLDS` table (`app.py` lines 18-27). -/
structure ThresholdEntry where
  high : Option ℚ
  low : Option ℚ
  unit : String
deriving Repr, DecidableEq

/-- Clinical thresholds for vital signs (`app.py` lines 18-27). -/
def THRESHOLDS : List (String × ThresholdEntry) :=
  [("blood_pressure_systolic", ⟨some 140, some 90, "mmHg"⟩),
   ("blood_pressure_diastolic", ⟨some 90, some 60, "mmHg"⟩),
   ("heart_rate", ⟨some 100, some 60, "bpm"⟩),
   ("temperature", ⟨some 38.0, some 36.0, "°C"⟩),
   ("respiratory_rate", ⟨some 20, some 12, "/min"⟩),
   ("oxygen_saturation", ⟨some 100, some 95, "%"⟩),
   ("body_weight", ⟨none, none, "kg"⟩),
   ("bmi", ⟨some 30, some 18.5, "kg/m²"⟩)]

/-- LOINC codes for common vitals (`app.py` lines 30-40). -/
def VITAL_CODES : List (String × String) :=
  [("85354-9", "blood_pressure"),
   ("8480-6", "blood_pressure_systolic"),
   ("8462-4", "blood_pressure_diastolic"),
   ("8867-4", "heart_rate"),
   ("8310-5", "temperature"),
   ("9279-1", "respiratory_rate"),
   ("2708-6", "oxygen_saturation"),
   ("29463-7", "body_weight"),
   ("39156-5", "bmi")]

/-- `VITAL_CODES[c]` when `c in VITAL_CODES`, else absent. -/
def lookupVital (c : String) : Option String :=
  List.lookup c VITAL_CODES

/-- `THRESHOLDS[t]` when `t in THRESHOLDS`, else absent. -/
def lookupThreshold (t : String) : Option ThresholdEntry :=
  List.lookup t THRESHOLDS

/-- The high threshold the descriptor for `t` defines, if any. -/
def highThresholdOf (t : String) : Option ℚ :=
  (lookupThreshold t).bind ThresholdEntry.high

/-- The low threshold the descriptor for `t` defines, if any. -/
def lowThresholdOf (t : String) : Option ℚ :=
  (lookupThreshold t).bind ThresholdEntry.low

/-- Python truthiness of an optional string: `None` and `''` are falsy. -/
def pyTruthyStr : Option String → Bool
  | none => false
  | some s => s ≠ ""

/-- Python `a or b` on optional strings. -/
def pyOrStr (a b : Option String) : Option String :=
  if pyTruthyStr a then a else b

/-- Models Python `s.replace('Z', '+00:00')` (every `'Z'` character is a
one-character occurrence of the pattern). -/
def pyReplaceZ (s : String) : String :=
  String.mk (s.toList.flatMap (fun c => if c = 'Z' then "+00:00".toList else [c]))

/-- Value of a decimal digit character. -/
def digitVal (c : Char) : Option ℕ :=
  if c.isDigit then some (c.toNat - 48) else none

/-- Two-digit decimal number. -/
def dig2 (a b : Char) : Option ℕ := do
  pure ((← digitVal a) * 10 + (← digitVal b))

/-- Four-digit decimal number. -/
def dig4 (a b c d : Char) : Option ℕ := do
  pure ((← dig2 a b) * 100 + (← dig2 c d))

/-- Gregorian leap year. -/
def isLeap (y : ℕ) : Bool :=
  (y % 4 = 0 && y % 100 ≠ 0) || y % 400 = 0

/-- Days in a month of the proleptic Gregorian calendar. -/
def daysInMonth (y m : ℕ) : ℕ :=
  if m = 2 then (if isLeap y then 29 else 28)
  else if m = 4 ∨ m = 6 ∨ m = 9 ∨ m = 11 then 30
  else 31

/-- Days from 1970-01-01 to the given civil date (valid for
`1 ≤ y ≤ 9999`, the `datetime` year range). -/
def daysFromCivil (y m d : ℕ) : ℤ :=
  let y' := if m ≤ 2 then y - 1 else y
  let era := y' / 400
  let yoe := y' % 400
  let m' := if m > 2 then m - 3 else m + 9
  let doy := (153 * m' + 2) / 5 + d - 1
  let doe := yoe * 365 + yoe / 4 - yoe / 100 + doy
  (era * 146097 + doe : ℤ) - 719468

/-- UTC-offset suffix `±HH:MM` (empty input means no offset), in
seconds. -/
def parseOffset : List Char → Option ℤ
  | [] => some 0
  | '+' :: h1 :: h2 :: ':' :: m1 :: m2 :: [] => do
    let h ← dig2 h1 h2
    let m ← dig2 m1 m2
    guard (h ≤ 23 ∧ m ≤ 59)
    pure (h * 3600 + m * 60 : ℤ)
  | '-' :: h1 :: h2 :: ':' :: m1 :: m2 :: [] => do
    let h ← dig2 h1 h2
    let m ← dig2 m1 m2
    guard (h ≤ 23 ∧ m ≤ 59)
    pure (-(h * 3600 + m * 60 : ℤ))
  | _ => none

/-- Time-of-day part following the date: empty (midnight), or a
separator followed by `HH:MM` or `HH:MM:SS` and an optional offset.
Returns `(seconds of day, offset seconds)`. -/
def parseTime : List Char → Option (ℕ × ℤ)
  | [] => some (0, 0)
  | sep :: h1 :: h2 :: ':' :: m1 :: m2 :: rest =>
    if sep = 'T' ∨ sep = ' ' then do
      let h ← dig2 h1 h2
      let mi ← dig2 m1 m2
      guard (h ≤ 23 ∧ mi ≤ 59)
      match rest with
      | ':' :: s1 :: s2 :: rest2 => do
        let s ← dig2 s1 s2
        guard (s ≤ 59)
        let off ← parseOffset rest2
        pure (h * 3600 + mi * 60 + s, off)
      | _ => do
        let off ← parseOffset rest
        pure (h * 3600 + mi * 60, off)
    else none
  | _ => none

/-- Modelled from the library: `datetime.fromisoformat`, restricted to
the ISO-8601 subset this application exchanges
(`YYYY-MM-DD[{T or space}HH:MM[:SS]][±HH:MM]`).  The result is the
instant as integer seconds since the Unix epoch (a naive datetime is
keyed as if UTC).  A rejected string models the `ValueError` that
`parse_observation`'s `except` clause turns into `None`. -/
def fromisoformat (s : String) : Option ℤ :=
  match s.toList with
  | y1 :: y2 :: y3 :: y4 :: '-' :: m1 :: m2 :: '-' :: d1 :: d2 :: rest => do
    let y ← dig4 y1 y2 y3 y4
    let mo ← dig2 m1 m2
    let da ← dig2 d1 d2
    guard (1 ≤ y)
    guard (1 ≤ mo ∧ mo ≤ 12)
    guard (1 ≤ da ∧ da ≤ daysInMonth y mo)
    let (sod, off) ← parseTime rest
    pure (daysFromCivil y mo da * 86400 + sod - off)
  | _ => none

/-- `app.py` line 63:
`obs.get('effectiveDateTime') or obs.get('effectivePeriod', {}).get('start')`. -/
def dateStrOf (obs : Observation) : Option String :=
  pyOrStr obs.effectiveDateTime (obs.effectivePeriod.bind Pd.start)

/-- `app.py` lines 71-77: scan the record-level `coding` list for the
first entry whose `code` is in `VITAL_CODES`, and return its mapped
vital type. -/
def resolveVitalType : List Coding → Option String
  | [] => none
  | c :: rest =>
    match c.code.bind lookupVital with
    | some t => some t
    | none => resolveVitalType rest

/-- The record's resolved vital type
(`obs.get('code', {}).get('coding', [])` scanned by `resolveVitalType`). -/
def vitalTypeOf (obs : Observation) : Option String :=
  resolveVitalType ((obs.code.bind CodeField.coding).getD [])

/-- `app.py` line 87:
`comp.get('code', {}).get('coding', [{}])[0].get('code')`.
An explicitly-empty `coding` list makes the `[0]` index raise
(`Except.error`), which aborts the whole record via the `except`
clause; an absent `coding` falls back to the default `[{}]`, whose
first element has no `code`. -/
def componentCode (comp : Component) : Except Unit (Option String) :=
  match comp.code.bind CodeField.coding with
  | none => .ok none
  | some [] => .error ()
  | some (c :: _) => .ok c.code

/-- `app.py` lines 88-99: the rows one component contributes, given
its already-extracted first coding code `ck`: one row if `ck` is
registered and the component's `valueQuantity.value` is present,
nothing otherwise. -/
def compReadings (i : String) (d : ℤ) (comp : Component) (ck : Option String) :
    List Reading :=
  match ck.bind lookupVital with
  | none => []
  | some comp_type =>
    match comp.valueQuantity.bind ValueQuantity.value with
    | none => []
    | some v =>
      [⟨i, d, comp_type, v, (comp.valueQuantity.bind ValueQuantity.unit).getD ""⟩]

/-- `app.py` lines 85-99: the loop over `component` entries in the
blood-pressure branch, accumulating the contributed rows; a raising
component code extraction aborts the whole record. -/
def bpLoop (i : String) (d : ℤ) : List Component → Except Unit (List Reading)
  | [] => .ok []
  | comp :: rest =>
    match componentCode comp with
    | .error e => .error e
    | .ok ck =>
      match bpLoop i d rest with
      | .error e => .error e
      | .ok rs => .ok (compReadings i d comp ck ++ rs)

/-- `app.py` lines 59-118: parse one FHIR Observation resource.
`none` models both the explicit `return None` paths and the bare
`except Exception` clause; `some rs` models returning the list `rs`
(the single-value branch returns a one-element list; the
blood-pressure branch may return an empty list). -/
def parse_observation (obs : Observation) : Option (List Reading) :=
  match dateStrOf obs with
  | none => none
  | some ds =>
    if ds = "" then none
    else
      match fromisoformat (pyReplaceZ ds) with
      | none => none
      | some date =>
        match vitalTypeOf obs with
        | none => none
        | some vital_type =>
          if vital_type = "blood_pressure" then
            match bpLoop (obs.id.getD "N/A") date (obs.component.getD []) with
            | .error _ => none
            | .ok results => some results
          else
            match obs.valueQuantity.bind ValueQuantity.value with
            | none => none
            | some v =>
              some [⟨obs.id.getD "N/A", date, vital_type, v,
                     (obs.valueQuantity.bind ValueQuantity.unit).getD ""⟩]

/-- `app.py` lines 260-268, one iteration: the rows one `entry`
contributes to `all_observations` (skipped unless its resource is an
`Observation`; a `None` or empty parse contributes nothing). -/
def extractEntry (e : Entry) : List Reading :=
  match e.resource with
  | none => []
  | some r =>
    if r.resourceType = some "Observation" then (parse_observation r).getD []
    else []

/-- `app.py` lines 257-268: the main processing loop, building
`all_observations` from `bundle.get('entry', [])` in entry order. -/
def normalize (b : Bundle) : List Reading :=
  (b.entry.getD []).foldl (fun acc e => acc ++ extractEntry e) []

/-- `app.py` lines 120-132: `determine_status`. -/
def determine_status (vital_type : String) (value : ℚ) : String × String :=
  match lookupThreshold vital_type with
  | none => ("normal", "⚪")
  | some threshold =>
    if threshold.high.any (fun h => decide (h < value)) then ("high", "🔴")
    else if threshold.low.any (fun l => decide (value < l)) then ("low", "🔵")
    else ("normal", "🟢")

/-- Outcome of `requests.get` + `raise_for_status` as `app.py` lines
42-57 observe it: either a decoded JSON body, or a
`requests.exceptions.RequestException` (transport failure, timeout, or
non-success status raised by `raise_for_status`). -/
inductive HttpResult where
  | ok (body : Bundle)
  | requestError
deriving Repr, DecidableEq

/-- `app.py` lines 42-57: `fetch_fhir_observations`, as a function of
the network outcome.  First component: the returned value
(`response.json()` or `None`); second component: whether `st.error`
was displayed. -/
def fetch_fhir_observations : HttpResult → Option Bundle × Bool
  | .ok b => (some b, false)
  | .requestError => (none, true)

/-- Python dict truthiness of a bundle: non-empty dict. -/
def pyTruthyBundle (b : Bundle) : Bool :=
  b.entry.isSome || b.otherKeys

/-- `app.py` lines 241-246: the "Fetch Data" button handler's effect on
`st.session_state['fhir_data']` (`if bundle: st.session_state[...] = bundle`). -/
def fetchButtonHandler (session : Option Bundle) (r : HttpResult) : Option Bundle :=
  match (fetch_fhir_observations r).1 with
  | some b => if pyTruthyBundle b then some b else session
  | none => session

/-! Concrete inputs used by the counterexamples and witnesses below. -/

/-- Observation with every optional field absent. -/
def emptyObs : Observation := ⟨none, none, none, none, none, none, none⟩

/-- The `bp-1` entry of `load_sample_data` (`app.py` lines 186-201),
restricted to the keys `parse_observation` reads. -/
def sampleBp : Observation :=
  { emptyObs with
    id := some "bp-1"
    resourceType := some "Observation"
    effectiveDateTime := some "2025-10-01T10:00:00Z"
    code := some ⟨some [⟨some "85354-9"⟩]⟩
    component := some
      [⟨some ⟨some [⟨some "8480-6"⟩]⟩, some ⟨some 145, some "mmHg"⟩⟩,
       ⟨some ⟨some [⟨some "8462-4"⟩]⟩, some ⟨some 92, some "mmHg"⟩⟩] }

/-- The `hr-1` entry of `load_sample_data` (`app.py` lines 202-212). -/
def sampleHr : Observation :=
  { emptyObs with
    id := some "hr-1"
    resourceType := some "Observation"
    effectiveDateTime := some "2025-10-01T10:00:00Z"
    code := some ⟨some [⟨some "8867-4"⟩]⟩
    valueQuantity := some ⟨some 110, some "bpm"⟩ }

/-- Bundle holding the two sample records above. -/
def sampleBundle : Bundle := ⟨some [⟨some sampleBp⟩, ⟨some sampleHr⟩], true⟩

/-- An otherwise-valid heart-rate record whose timestamp field is
present but does not parse as a point in time. -/
def badTsObs : Observation :=
  { emptyObs with
    id := some "bad-1"
    resourceType := some "Observation"
    effectiveDateTime := some "not-a-date"
    code := some ⟨some [⟨some "8867-4"⟩]⟩
    valueQuantity := some ⟨some 70, some "bpm"⟩ }

/-- Batch mixing the malformed-timestamp record with a valid record. -/
def mixedBundle : Bundle := ⟨some [⟨some badTsObs⟩, ⟨some sampleHr⟩], true⟩

/-- A heart-rate record one hour earlier than `sampleHr`. -/
def hrEarly : Observation :=
  { emptyObs with
    id := some "hr-0"
    resourceType := some "Observation"
    effectiveDateTime := some "2025-10-01T09:00:00Z"
    code := some ⟨some [⟨some "8867-4"⟩]⟩
    valueQuantity := some ⟨some 80, some "bpm"⟩ }

/-- Bundle whose records appear in ascending timestamp order. -/
def ascBundle : Bundle := ⟨some [⟨some hrEarly⟩, ⟨some sampleHr⟩], true⟩

/-- A heart-rate record whose value carries no reported unit. -/
def hrNoUnit : Observation :=
  { emptyObs with
    id := some "hr-2"
    resourceType := some "Observation"
    effectiveDateTime := some "2025-10-01T10:00:00Z"
    code := some ⟨some [⟨some "8867-4"⟩]⟩
    valueQuantity := some ⟨some 72, none⟩ }

/-- A heart-rate record with no direct scalar value but with a
component whose own code matches the resolved heart-rate code and
carries a value. -/
def hrComponentOnly : Observation :=
  { emptyObs with
    id := some "hr-3"
    resourceType := some "Observation"
    effectiveDateTime := some "2025-10-01T10:00:00Z"
    code := some ⟨some [⟨some "8867-4"⟩]⟩
    component := some [⟨some ⟨some [⟨some "8867-4"⟩]⟩, some ⟨some 70, some "bpm"⟩⟩] }

/-- A blood-pressure panel record that carries both a direct scalar
value and a systolic component. -/
def bpWithDirect : Observation :=
  { emptyObs with
    id := some "bp-2"
    resourceType := some "Observation"
    effectiveDateTime := some "2025-10-01T10:00:00Z"
    code := some ⟨some [⟨some "85354-9"⟩]⟩
    valueQuantity := some ⟨some 120, some "mmHg"⟩
    component := some [⟨some ⟨some [⟨some "8480-6"⟩]⟩, some ⟨some 145, some "mmHg"⟩⟩] }

/-- A record whose coding list mentions only a code outside the
registry. -/
def unregObs : Observation :=
  { emptyObs with
    id := some "x-1"
    resourceType := some "Observation"
    effectiveDateTime := some "2025-10-01T10:00:00Z"
    code := some ⟨some [⟨some "9999-9"⟩]⟩
    valueQuantity := some ⟨some 5, some "x"⟩ }

/-- A blood-pressure panel whose single component lists an
unregistered code first and the code `kr` second in its `coding`
list. -/
def mkPanelObs (ku kr : String) : Observation :=
  { emptyObs with
    id := some "panel-1"
    resourceType := some "Observation"
    effectiveDateTime := some "2025-10-01T10:00:00Z"
    code := some ⟨some [⟨some "85354-9"⟩]⟩
    component := some [⟨some ⟨some [⟨some ku⟩, ⟨some kr⟩]⟩, some ⟨some 120, some "mmHg"⟩⟩] }

/-! Helper lemmas shared by the claim theorems. -/

/-- The main loop accumulates exactly the concatenation of the
per-entry contributions, in entry order. -/
theorem normalize_flatMap (b : Bundle) :
    normalize b = (b.entry.getD []).flatMap extractEntry := by
  have h : ∀ (l : List Entry) (acc : List Reading),
      l.foldl (fun a e => a ++ extractEntry e) acc = acc ++ l.flatMap extractEntry := by
    intro l
    induction l with
    | nil => intro acc; simp
    | cons e rest ih => intro acc; simp [List.foldl_cons, ih, List.append_assoc]
  simpa using h (b.entry.getD []) []

/-! Claim C2 (corrected): the fetcher has no fallback path. -/

/-- C2 counterexample: on a transport failure or non-success response,
`fetch_fhir_observations` returns an absent result (`None`) and
surfaces the failure as an error message; no fallback bundle is
substituted (the button handler leaves the stored data unchanged), so
the claim that fetch always returns some usable bundle with
`isFallback = true` and never surfaces the failure is false. -/
theorem fetch_failure_absent_and_error :
    fetch_fhir_observations .requestError = (none, true) ∧
    fetchButtonHandler none .requestError = none :=
  ⟨rfl, rfl⟩

/-- C2 amended: on transport failure or non-success response,
`fetch_fhir_observations` returns `None` and displays an error; the
Fetch Data handler then leaves the session state unchanged, so no
fallback bundle is substituted.  On success the decoded body is
returned with no error; a falsy (empty-object) body is likewise not
stored. -/
theorem fetch_failure_behaviour (s : Option Bundle) (b : Bundle) :
    fetch_fhir_observations .requestError = (none, true) ∧
    fetchButtonHandler s .requestError = s ∧
    fetch_fhir_observations (.ok b) = (some b, false) ∧
    fetchButtonHandler s (.ok ⟨none, false⟩) = s :=
  ⟨rfl, rfl, rfl, rfl⟩

/-! Claim C4 (corrected): the processing loop applies no sort. -/

/-- C4 counterexample: on a batch whose records appear in ascending
timestamp order, the produced sequence is in ascending order as well
(`09:00` before `10:00`), so the output is not sorted by timestamp
descending regardless of input order. -/
theorem normalize_not_sorted_desc :
    (normalize ascBundle).map Reading.date = [1759309200, 1759312800] ∧
    (1759309200 : ℤ) < 1759312800 :=
  ⟨by decide, by decide⟩

/-- C4 amended: the main processing loop performs no sorting; it
returns the per-entry readings concatenated in input-bundle entry
order, so the output is non-increasing by timestamp only when the
input contributions already are (as when the server honoured the
`_sort=-date` request parameter). -/
theorem normalize_append (xs ys : List Entry) (k : Bool) :
    normalize ⟨some (xs ++ ys), k⟩ = normalize ⟨some xs, k⟩ ++ normalize ⟨some ys, k⟩ := by
  simp [normalize_flatMap]

/-! Claim C1 (corrected): a present-but-unparsable timestamp discards
only its own record, not the batch. -/

/-- C1 counterexample: a batch containing one record with a
present-but-unparsable timestamp among otherwise-valid records still
yields the reading of the valid record, so it is false that zero
readings derived from the original batch survive (and no fallback
substitution happens anywhere in the processing loop). -/
theorem normalize_bad_timestamp_batch_survives :
    (normalize mixedBundle).map Reading.vital_type = ["heart_rate"] := by
  decide

/-- C1 amended: a record whose timestamp field is present but fails to
parse is discarded individually (the record-level `except` turns the
`ValueError` into `None`); the rest of the batch is normalized exactly
as if the bad record were absent, so the otherwise-valid records all
survive. -/
theorem bad_timestamp_record_discarded (xs ys : List Entry) (e : Entry)
    (obs : Observation) (ds : String) (k : Bool)
    (h1 : e.resource = some obs) (h2 : dateStrOf obs = some ds) (h3 : ds ≠ "")
    (h4 : fromisoformat (pyReplaceZ ds) = none) :
    normalize ⟨some (xs ++ e :: ys), k⟩ = normalize ⟨some (xs ++ ys), k⟩ := by
  have he : extractEntry e = [] := by
    unfold extractEntry
    rw [h1]
    by_cases hrt : obs.resourceType = some "Observation"
    · simp only [hrt, if_pos]
      unfold parse_observation
      rw [h2]
      simp [h3, h4]
    · simp [hrt]
  simp [normalize_flatMap, he]

/-- C1 witness: the amended statement applied to the concrete mixed
batch: dropping the malformed-timestamp record leaves the result
unchanged. -/
theorem bad_timestamp_record_discarded_witness :
    dateStrOf badTsObs = some "not-a-date" ∧
    fromisoformat (pyReplaceZ "not-a-date") = none ∧
    normalize mixedBundle = normalize ⟨some [⟨some sampleHr⟩], true⟩ :=
  ⟨by decide, by decide,
    bad_timestamp_record_discarded [] [⟨some sampleHr⟩] ⟨some badTsObs⟩ badTsObs
      "not-a-date" true rfl (by decide) (by decide) (by decide)⟩

/-! Claim C5 (corrected): a missing unit defaults to the empty string,
not to the descriptor's canonical unit. -/

/-- C5 counterexample: a heart-rate record whose value carries no
reported unit yields a reading with unit `""`, while the descriptor's
canonical unit for `heart_rate` is `"bpm"`, so the claim that such a
reading's unit equals the canonical unit is false. -/
theorem missing_unit_not_canonical :
    ((parse_observation hrNoUnit).getD []).map Reading.unit = [""] ∧
    (lookupThreshold "heart_rate").map ThresholdEntry.unit = some "bpm" :=
  ⟨by decide, by decide⟩

/-- Inversion principle for `parse_observation`: a successful parse
pins down the resolved date string, the parsed date, the resolved
vital type, and the branch that produced the result list. -/
theorem parse_cases (obs : Observation) (rs : List Reading)
    (hp : parse_observation obs = some rs) :
    ∃ ds date vt, dateStrOf obs = some ds ∧ ds ≠ "" ∧
      fromisoformat (pyReplaceZ ds) = some date ∧ vitalTypeOf obs = some vt ∧
      ((vt = "blood_pressure" ∧
        bpLoop (obs.id.getD "N/A") date (obs.component.getD []) = .ok rs) ∨
       (vt ≠ "blood_pressure" ∧
        ∃ v, obs.valueQuantity.bind ValueQuantity.value = some v ∧
          rs = [⟨obs.id.getD "N/A", date, vt, v,
                 (obs.valueQuantity.bind ValueQuantity.unit).getD ""⟩])) := by
  unfold parse_observation at hp
  split at hp
  · exact absurd hp (by simp)
  next ds hds =>
    split at hp
    · exact absurd hp (by simp)
    next hne =>
      split at hp
      · exact absurd hp (by simp)
      next date hiso =>
        split at hp
        · exact absurd hp (by simp)
        next vt hvt =>
          split at hp
          next hbp =>
            split at hp
            · exact absurd hp (by simp)
            next results hloop =>
              refine ⟨ds, date, vt, hds, hne, hiso, hvt, Or.inl ⟨hbp, ?_⟩⟩
              rw [hloop]
              injection hp with h
              rw [h]
          next hbp =>
            split at hp
            · exact absurd hp (by simp)
            next v hv =>
              refine ⟨ds, date, vt, hds, hne, hiso, hvt, Or.inr ⟨hbp, v, hv, ?_⟩⟩
              injection hp with h
              exact h.symm

/-- A record whose resolved date string is falsy (absent or empty) is
discarded. -/
theorem parse_none_of_notTruthy (obs : Observation)
    (h : pyTruthyStr (dateStrOf obs) = false) : parse_observation obs = none := by
  unfold parse_observation
  cases hds : dateStrOf obs with
  | none => rfl
  | some ds =>
    rw [hds] at h
    have he : ds = "" := by simpa [pyTruthyStr] using h
    simp [he]

/-- A record that resolves no registered vital type is discarded. -/
theorem parse_none_of_noVital (obs : Observation)
    (h : vitalTypeOf obs = none) : parse_observation obs = none := by
  unfold parse_observation
  cases hds : dateStrOf obs with
  | none => rfl
  | some ds =>
    by_cases hne : ds = ""
    · simp [hne]
    · cases hiso : fromisoformat (pyReplaceZ ds) <;> simp [hne, hiso, h]

/-! Claim C5 (corrected), amended part. -/

/-- C5 amended: a reading produced from a source value that carries no
reported unit gets the empty string as its unit (the descriptor's
canonical unit is never consulted) — both for single-value records and
for components of the blood-pressure panel. -/
theorem missing_unit_yields_empty :
    (∀ (obs : Observation) (t : String) (rs : List Reading) (r : Reading),
      vitalTypeOf obs = some t → t ≠ "blood_pressure" →
      obs.valueQuantity.bind ValueQuantity.unit = none →
      parse_observation obs = some rs → r ∈ rs → r.unit = "") ∧
    (∀ (i : String) (d : ℤ) (comp : Component) (ck t : String) (v : ℚ),
      componentCode comp = .ok (some ck) → lookupVital ck = some t →
      comp.valueQuantity = some ⟨some v, none⟩ →
      bpLoop i d [comp] = .ok [⟨i, d, t, v, ""⟩]) := by
  constructor
  · intro obs t rs r hvt ht hunit hp hr
    obtain ⟨ds, date, vt, hds, hne, hiso, hvt2, hbranch⟩ := parse_cases obs rs hp
    rw [hvt] at hvt2
    injection hvt2 with hv2
    rcases hbranch with ⟨hbp, _⟩ | ⟨_, v, hval, hrs⟩
    · exact absurd (hv2.trans hbp) ht
    · subst hrs
      rw [List.mem_singleton] at hr
      subst hr
      simp [hunit]
  · intro i d comp ck t v hc hk hvq
    simp [bpLoop, compReadings, hc, hk, hvq, Option.bind]

/-- C5 witness: the amended statement applied to the concrete
unit-less heart-rate record. -/
theorem missing_unit_yields_empty_witness :
    parse_observation hrNoUnit =
      some [⟨"hr-2", 1759312800, "heart_rate", 72, ""⟩] ∧
    Reading.unit ⟨"hr-2", 1759312800, "heart_rate", 72, ""⟩ = "" :=
  ⟨by decide,
    missing_unit_yields_empty.1 hrNoUnit "heart_rate"
      [⟨"hr-2", 1759312800, "heart_rate", 72, ""⟩]
      ⟨"hr-2", 1759312800, "heart_rate", 72, ""⟩
      (by decide) (by decide) (by decide) (by decide) (by decide)⟩

/-! Claim C6 (corrected): value extraction branches on the resolved
type; there is no direct-scalar-then-component preference. -/

/-- C6 counterexample: a heart-rate record with no direct scalar value
but with a component whose own code matches the resolved code is
discarded (the component list is never searched), and a blood-pressure
panel with a direct scalar value ignores it and reads only the
components — both contradicting the claimed prefer-direct-then-search
order. -/
theorem value_extraction_counterexample :
    parse_observation hrComponentOnly = none ∧
    parse_observation bpWithDirect =
      some [⟨"bp-2", 1759312800, "blood_pressure_systolic", 145, "mmHg"⟩] :=
  ⟨by decide, by decide⟩

/-- C6 amended: value extraction depends only on the resolved type:
for any type other than the blood-pressure panel, only the record's
direct scalar value field is consulted and a record lacking it is
discarded without searching the component list; for the
blood-pressure panel type, only the component list is consulted and
the record's direct scalar value is ignored entirely. -/
theorem value_extraction_by_type :
    (∀ (obs : Observation) (t : String),
      vitalTypeOf obs = some t → t ≠ "blood_pressure" →
      obs.valueQuantity.bind ValueQuantity.value = none →
      parse_observation obs = none) ∧
    (∀ obs : Observation, vitalTypeOf obs = some "blood_pressure" →
      parse_observation obs = parse_observation { obs with valueQuantity := none }) := by
  constructor
  · intro obs t hvt ht hval
    unfold parse_observation
    cases hds : dateStrOf obs with
    | none => rfl
    | some ds =>
      by_cases hne : ds = ""
      · simp [hne]
      · cases hiso : fromisoformat (pyReplaceZ ds) with
        | none => simp [hne, hiso]
        | some date => simp [hne, hiso, hvt, ht, hval]
  · intro obs hvt
    have hd : dateStrOf { obs with valueQuantity := none } = dateStrOf obs := rfl
    have hv : vitalTypeOf { obs with valueQuantity := none } = vitalTypeOf obs := rfl
    unfold parse_observation
    rw [hd, hv]
    cases hds : dateStrOf obs with
    | none => rfl
    | some ds =>
      by_cases hne : ds = ""
      · simp [hne]
      · cases hiso : fromisoformat (pyReplaceZ ds) with
        | none => simp [hne, hiso]
        | some date => simp [hne, hiso, hvt]

/-- C6 witness: the amended statement applied to the two concrete
records of the counterexample. -/
theorem value_extraction_by_type_witness :
    parse_observation hrComponentOnly = none ∧
    parse_observation bpWithDirect =
      parse_observation { bpWithDirect with valueQuantity := none } :=
  ⟨value_extraction_by_type.1 hrComponentOnly "heart_rate"
      (by decide) (by decide) (by decide),
    value_extraction_by_type.2 bpWithDirect (by decide)⟩

/-! Helper lemmas for the registry- and timestamp-totality claims. -/

/-- A successful association-list lookup returns one of the list's
values. -/
theorem lookup_mem_snd {β : Type} {l : List (String × β)} {k : String} {v : β}
    (h : List.lookup k l = some v) : v ∈ l.map Prod.snd := by
  induction l with
  | nil => simp [List.lookup] at h
  | cons p rest ih =>
    rcases p with ⟨a, b⟩
    simp only [List.lookup] at h
    split at h
    · injection h with h
      subst h
      simp
    · simpa using Or.inr (ih h)

/-- Each row a component contributes carries the loop's date and a
registered vital type. -/
theorem compReadings_sound (i : String) (d : ℤ) (comp : Component)
    (ck : Option String) (r : Reading) (hr : r ∈ compReadings i d comp ck) :
    r.date = d ∧ r.vital_type ∈ VITAL_CODES.map Prod.snd := by
  unfold compReadings at hr
  split at hr
  · simp at hr
  next t hcl =>
    split at hr
    · simp at hr
    next v hv =>
      rw [List.mem_singleton] at hr
      subst hr
      refine ⟨rfl, ?_⟩
      cases ck with
      | none => simp at hcl
      | some k => exact lookup_mem_snd (by simpa using hcl)

/-- Each row the component loop accumulates carries the loop's date
and a registered vital type. -/
theorem bpLoop_sound (i : String) (d : ℤ) (comps : List Component)
    (rs : List Reading) (h : bpLoop i d comps = .ok rs) :
    ∀ r ∈ rs, r.date = d ∧ r.vital_type ∈ VITAL_CODES.map Prod.snd := by
  induction comps generalizing rs with
  | nil =>
    rw [bpLoop] at h
    injection h with h
    subst h
    simp
  | cons comp rest ih =>
    rw [bpLoop] at h
    split at h
    · exact absurd h (by simp)
    next ck hck =>
      split at h
      · exact absurd h (by simp)
      next rs' hrest =>
        injection h with h
        subst h
        intro r hr
        rcases List.mem_append.mp hr with hr1 | hr2
        · exact compReadings_sound i d comp ck r hr1
        · exact ih rs' hrest r hr2

/-- A scan that resolves a vital type found it through a registered
code. -/
theorem resolveVitalType_mem (cs : List Coding) (t : String)
    (h : resolveVitalType cs = some t) : t ∈ VITAL_CODES.map Prod.snd := by
  induction cs with
  | nil => simp [resolveVitalType] at h
  | cons c rest ih =>
    rw [resolveVitalType] at h
    split at h
    next t' hc =>
      injection h with h
      subst h
      cases hcc : c.code with
      | none => rw [hcc] at hc; simp at hc
      | some k =>
        rw [hcc] at hc
        exact lookup_mem_snd (by simpa using hc)
    next => exact ih h

/-- A coding list none of whose entries carries a registered code
resolves no vital type. -/
theorem resolveVitalType_none (cs : List Coding)
    (h : ∀ cd ∈ cs, cd.code.bind lookupVital = none) :
    resolveVitalType cs = none := by
  induction cs with
  | nil => rfl
  | cons c rest ih =>
    rw [resolveVitalType]
    rw [h c (List.mem_cons_self c rest)]
    exact ih fun cd hcd => h cd (List.mem_cons_of_mem c hcd)

/-! Claim C7 (confirmed): registry totality. -/

/-- C7: for every input bundle, every reading the processing loop
emits carries a vital type obtained from the code registry (so no
reading ever carries an unregistered code), and a record all of whose
coding entries reference only unregistered (or absent) codes is
silently discarded rather than causing an error. -/
theorem registry_totality :
    (∀ (b : Bundle) (r : Reading), r ∈ normalize b →
      r.vital_type ∈ VITAL_CODES.map Prod.snd) ∧
    (∀ obs : Observation,
      (∀ cd ∈ (obs.code.bind CodeField.coding).getD [],
        cd.code.bind lookupVital = none) →
      parse_observation obs = none) := by
  constructor
  · intro b r hr
    rw [normalize_flatMap, List.mem_flatMap] at hr
    obtain ⟨e, _, hre⟩ := hr
    unfold extractEntry at hre
    cases hres : e.resource with
    | none => rw [hres] at hre; simp at hre
    | some ob =>
      rw [hres] at hre
      by_cases hrt : ob.resourceType = some "Observation"
      · simp only [hrt, if_true, if_pos] at hre
        cases hp : parse_observation ob with
        | none => rw [hp] at hre; simp at hre
        | some rs =>
          rw [hp] at hre
          simp only [Option.getD_some] at hre
          obtain ⟨ds, date, vt, _, _, _, hvt, hbranch⟩ := parse_cases ob rs hp
          rcases hbranch with ⟨_, hloop⟩ | ⟨_, v, _, hrs⟩
          · exact (bpLoop_sound _ _ _ _ hloop r hre).2
          · subst hrs
            rw [List.mem_singleton] at hre
            subst hre
            exact resolveVitalType_mem _ _ hvt
      · simp [hrt] at hre
  · intro obs h
    apply parse_none_of_noVital
    exact resolveVitalType_none _ h

/-- C7 witness: the reading the sample bundle produces carries a
registered vital type, and the record coded only with the unregistered
code `9999-9` is discarded. -/
theorem registry_totality_witness :
    Reading.vital_type ⟨"hr-1", 1759312800, "heart_rate", 110, "bpm"⟩ ∈
      VITAL_CODES.map Prod.snd ∧
    parse_observation unregObs = none :=
  ⟨registry_totality.1 sampleBundle
      ⟨"hr-1", 1759312800, "heart_rate", 110, "bpm"⟩ (by decide),
    registry_totality.2 unregObs (by decide)⟩

/-! Claim C8 (confirmed): timestamp totality and resolution order. -/

/-- C8: every emitted reading's timestamp was parsed from the
record's instant field when that field is present (and non-empty),
and otherwise from the start of the record's interval field; a record
with neither usable field is discarded, so a reading with no
timestamp is never produced. -/
theorem timestamp_totality :
    (∀ (obs : Observation) (rs : List Reading) (r : Reading),
      parse_observation obs = some rs → r ∈ rs →
      ((pyTruthyStr obs.effectiveDateTime = true ∧
        obs.effectiveDateTime.map (fun s => fromisoformat (pyReplaceZ s)) =
          some (some r.date)) ∨
       (pyTruthyStr obs.effectiveDateTime = false ∧
        (obs.effectivePeriod.bind Pd.start).map
            (fun s => fromisoformat (pyReplaceZ s)) =
          some (some r.date)))) ∧
    (∀ obs : Observation,
      pyTruthyStr obs.effectiveDateTime = false →
      pyTruthyStr (obs.effectivePeriod.bind Pd.start) = false →
      parse_observation obs = none) := by
  constructor
  · intro obs rs r hp hr
    obtain ⟨ds, date, vt, hds, hne, hiso, hvt, hbranch⟩ := parse_cases obs rs hp
    have hdate : r.date = date := by
      rcases hbranch with ⟨_, hloop⟩ | ⟨_, v, _, hrs⟩
      · exact (bpLoop_sound _ _ _ _ hloop r hr).1
      · subst hrs
        rw [List.mem_singleton] at hr
        subst hr
        rfl
    unfold dateStrOf pyOrStr at hds
    cases heff : pyTruthyStr obs.effectiveDateTime with
    | true =>
      left
      refine ⟨rfl, ?_⟩
      rw [heff, if_pos rfl] at hds
      rw [hds]
      simp [hiso, hdate]
    | false =>
      right
      refine ⟨rfl, ?_⟩
      rw [heff] at hds
      simp only [Bool.false_eq_true, if_false] at hds
      rw [hds]
      simp [hiso, hdate]
  · intro obs h1 h2
    apply parse_none_of_notTruthy
    unfold dateStrOf pyOrStr
    rw [h1]
    simpa using h2

/-- C8 witness: the sample heart-rate record's reading derives its
timestamp from the instant field. -/
theorem timestamp_totality_witness :
    (pyTruthyStr sampleHr.effectiveDateTime = true ∧
      sampleHr.effectiveDateTime.map (fun s => fromisoformat (pyReplaceZ s)) =
        some (some (1759312800 : ℤ))) ∨
    (pyTruthyStr sampleHr.effectiveDateTime = false ∧
      (sampleHr.effectivePeriod.bind Pd.start).map
          (fun s => fromisoformat (pyReplaceZ s)) =
        some (some (1759312800 : ℤ))) := by
  exact timestamp_totality.1 sampleHr
    [⟨"hr-1", 1759312800, "heart_rate", 110, "bpm"⟩]
    ⟨"hr-1", 1759312800, "heart_rate", 110, "bpm"⟩ (by decide) (by decide)

/-! Claim C9 (confirmed): component resolution for two-component
panels. -/

/-- C9: a blood-pressure panel record carrying two components, each
tagged (in its first coding entry) with a distinct registered code and
carrying a value and unit, yields exactly two readings, each with the
corresponding vital type, value, and unit. -/
theorem component_resolution (obs : Observation) (ds : String) (date : ℤ)
    (c1 c2 : Component) (k1 k2 t1 t2 : String) (v1 v2 : ℚ) (u1 u2 : String)
    (hds : dateStrOf obs = some ds) (hne : ds ≠ "")
    (hiso : fromisoformat (pyReplaceZ ds) = some date)
    (hvt : vitalTypeOf obs = some "blood_pressure")
    (hcomp : obs.component = some [c1, c2])
    (hc1 : componentCode c1 = .ok (some k1)) (hk1 : lookupVital k1 = some t1)
    (hv1 : c1.valueQuantity = some ⟨some v1, some u1⟩)
    (hc2 : componentCode c2 = .ok (some k2)) (hk2 : lookupVital k2 = some t2)
    (hv2 : c2.valueQuantity = some ⟨some v2, some u2⟩)
    (_hkk : k1 ≠ k2) :
    parse_observation obs =
      some [⟨obs.id.getD "N/A", date, t1, v1, u1⟩,
            ⟨obs.id.getD "N/A", date, t2, v2, u2⟩] := by
  unfold parse_observation
  rw [hds]
  simp [hne, hiso, hvt, hcomp, bpLoop, compReadings, hc1, hc2, hk1, hk2, hv1, hv2]

/-- C9 witness: the sample blood-pressure panel yields its systolic
and diastolic readings. -/
theorem component_resolution_witness :
    parse_observation sampleBp =
      some [⟨"bp-1", 1759312800, "blood_pressure_systolic", 145, "mmHg"⟩,
            ⟨"bp-1", 1759312800, "blood_pressure_diastolic", 92, "mmHg"⟩] := by
  exact component_resolution sampleBp "2025-10-01T10:00:00Z" 1759312800
    ⟨some ⟨some [⟨some "8480-6"⟩]⟩, some ⟨some 145, some "mmHg"⟩⟩
    ⟨some ⟨some [⟨some "8462-4"⟩]⟩, some ⟨some 92, some "mmHg"⟩⟩
    "8480-6" "8462-4" "blood_pressure_systolic" "blood_pressure_diastolic"
    145 92 "mmHg" "mmHg"
    (by decide) (by decide) (by decide) (by decide) (by decide) rfl
    (by decide) (by decide) rfl (by decide) (by decide) (by decide)

/-! Claim C10 (confirmed): record-level versus component-level code
resolution asymmetry. -/

/-- C10: the record-level scan examines every entry of the `coding`
list (a registered code in the second position is found), while the
component-level extraction reads only the first entry — so a panel
component whose registered code appears only in a non-first coding
entry contributes no reading. -/
theorem code_resolution_asymmetry (ku kr tr : String)
    (hu : lookupVital ku = none) (hr : lookupVital kr = some tr) :
    resolveVitalType [⟨some ku⟩, ⟨some kr⟩] = some tr ∧
    componentCode ⟨some ⟨some [⟨some ku⟩, ⟨some kr⟩]⟩, some ⟨some 120, some "mmHg"⟩⟩ =
      .ok (some ku) ∧
    parse_observation (mkPanelObs ku kr) = some [] := by
  refine ⟨?_, rfl, ?_⟩
  · simp [resolveVitalType, hu, hr, Option.bind]
  · have hiso : fromisoformat (pyReplaceZ "2025-10-01T10:00:00Z") =
        some 1759312800 := by decide
    have h85 : resolveVitalType [⟨some "85354-9"⟩] = some "blood_pressure" := by
      decide
    unfold parse_observation mkPanelObs
    simp [dateStrOf, pyOrStr, pyTruthyStr, emptyObs, hiso, vitalTypeOf, h85,
      bpLoop, compReadings, componentCode, hu, Option.bind]

/-- C10 witness: the asymmetry at the unregistered code `9999-9` and
the registered heart-rate code `8867-4`. -/
theorem code_resolution_asymmetry_witness :
    resolveVitalType [⟨some "9999-9"⟩, ⟨some "8867-4"⟩] = some "heart_rate" ∧
    componentCode
        ⟨some ⟨some [⟨some "9999-9"⟩, ⟨some "8867-4"⟩]⟩, some ⟨some 120, some "mmHg"⟩⟩ =
      .ok (some "9999-9") ∧
    parse_observation (mkPanelObs "9999-9" "8867-4") = some [] :=
  code_resolution_asymmetry "9999-9" "8867-4" "heart_rate" (by decide) (by decide)

/-! Claim C3 (confirmed): classification. -/

/-- Every `THRESHOLDS` entry that defines both bounds satisfies
`low < high`. -/
theorem threshold_low_lt_high (vt : String) (hi lo : ℚ)
    (hh : highThresholdOf vt = some hi) (hl : lowThresholdOf vt = some lo) :
    lo < hi := by
  unfold highThresholdOf at hh
  unfold lowThresholdOf at hl
  cases hlk : lookupThreshold vt with
  | none => rw [hlk] at hh; simp at hh
  | some t =>
    rw [hlk] at hh hl
    simp only [Option.some_bind] at hh hl
    have hmem : t ∈ THRESHOLDS.map Prod.snd :=
      lookup_mem_snd (l := THRESHOLDS) (by simpa [lookupThreshold] using hlk)
    simp only [THRESHOLDS, List.map_cons, List.map_nil, List.mem_cons,
      List.mem_singleton, List.not_mem_nil, or_false] at hmem
    rcases hmem with rfl | rfl | rfl | rfl | rfl | rfl | rfl | rfl <;>
      simp_all <;> subst hh <;> subst hl <;> norm_num

/-- The classifier returns `high` exactly when a high threshold is
defined and strictly exceeded. -/
theorem determine_status_high_iff (vt : String) (v : ℚ) :
    (determine_status vt v).1 = "high" ↔
      ∃ h, highThresholdOf vt = some h ∧ h < v := by
  unfold determine_status highThresholdOf
  cases hl : lookupThreshold vt with
  | none => simp
  | some t =>
    cases hh : t.high with
    | none =>
      simp only [Option.some_bind, hh, Option.any_none, Bool.false_eq_true,
        if_false]
      split <;> simp
    | some h =>
      by_cases hv : h < v
      · simp [hh, Option.any, hv]
      · simp only [Option.some_bind, hh, Option.any_some, decide_eq_true_eq]
        rw [if_neg hv]
        split <;> simp [hv]

/-- The classifier returns `low` exactly when the high test failed and
a low threshold is defined and strictly undercut. -/
theorem determine_status_low_iff (vt : String) (v : ℚ) :
    (determine_status vt v).1 = "low" ↔
      (¬ ∃ h, highThresholdOf vt = some h ∧ h < v) ∧
      ∃ l, lowThresholdOf vt = some l ∧ v < l := by
  unfold determine_status highThresholdOf lowThresholdOf
  cases hl : lookupThreshold vt with
  | none => simp
  | some t =>
    cases hh : t.high with
    | none =>
      simp only [Option.some_bind, hh, Option.any_none, Bool.false_eq_true,
        if_false]
      cases hlo : t.low with
      | none => simp
      | some lo =>
        by_cases hv : v < lo
        · simp [Option.any, hv]
        · simp [Option.any, hv]
    | some h =>
      by_cases hvh : h < v
      · simp [hh, Option.any, hvh]
      · simp only [Option.some_bind, hh, Option.any_some, decide_eq_true_eq]
        rw [if_neg hvh]
        cases hlo : t.low with
        | none => simp [hvh]
        | some lo =>
          by_cases hv : v < lo
          · simp [Option.any, hv, hvh]
          · simp [Option.any, hv, hvh]

/-- The classifier returns `normal` exactly when both tests fail. -/
theorem determine_status_normal_iff (vt : String) (v : ℚ) :
    (determine_status vt v).1 = "normal" ↔
      (¬ ∃ h, highThresholdOf vt = some h ∧ h < v) ∧
      ¬ ∃ l, lowThresholdOf vt = some l ∧ v < l := by
  unfold determine_status highThresholdOf lowThresholdOf
  cases hl : lookupThreshold vt with
  | none => simp
  | some t =>
    cases hh : t.high with
    | none =>
      simp only [Option.some_bind, hh, Option.any_none, Bool.false_eq_true,
        if_false]
      cases hlo : t.low with
      | none => simp
      | some lo =>
        by_cases hv : v < lo
        · simp [Option.any, hv]
        · simp [Option.any, hv]
    | some h =>
      by_cases hvh : h < v
      · simp [hh, Option.any, hvh]
      · simp only [Option.some_bind, hh, Option.any_some, decide_eq_true_eq]
        rw [if_neg hvh]
        cases hlo : t.low with
        | none => simp [hvh]
        | some lo =>
          by_cases hv : v < lo
          · simp [Option.any, hv, hvh]
          · simp [Option.any, hv, hvh]

/-- C3: for every vital type and value, the status is `high` iff a
high threshold is defined and strictly exceeded, otherwise `low` iff a
low threshold is defined and strictly undercut, otherwise `normal`; in
particular a value exactly equal to either defined threshold is
`normal`, and a vital type with no thresholds defined is `normal` for
every value. -/
theorem determine_status_spec (vt : String) (v : ℚ) :
    ((determine_status vt v).1 = "high" ↔
      ∃ h, highThresholdOf vt = some h ∧ h < v) ∧
    ((determine_status vt v).1 = "low" ↔
      (¬ ∃ h, highThresholdOf vt = some h ∧ h < v) ∧
      ∃ l, lowThresholdOf vt = some l ∧ v < l) ∧
    ((determine_status vt v).1 = "normal" ↔
      (¬ ∃ h, highThresholdOf vt = some h ∧ h < v) ∧
      ¬ ∃ l, lowThresholdOf vt = some l ∧ v < l) ∧
    ((highThresholdOf vt = some v ∨ lowThresholdOf vt = some v) →
      (determine_status vt v).1 = "normal") ∧
    ((highThresholdOf vt = none ∧ lowThresholdOf vt = none) →
      (determine_status vt v).1 = "normal") := by
  refine ⟨determine_status_high_iff vt v, determine_status_low_iff vt v,
    determine_status_normal_iff vt v, ?_, ?_⟩
  · intro hcase
    rw [determine_status_normal_iff]
    rcases hcase with hh | hl
    · refine ⟨?_, ?_⟩
      · rintro ⟨h, hh2, hhv⟩
        rw [hh] at hh2
        injection hh2 with h2
        exact absurd hhv (h2 ▸ lt_irrefl v)
      · rintro ⟨l, hl2, hlv⟩
        have := threshold_low_lt_high vt v l hh hl2
        exact absurd (hlv.trans this) (lt_irrefl v)
    · refine ⟨?_, ?_⟩
      · rintro ⟨h, hh2, hhv⟩
        have := threshold_low_lt_high vt h v hh2 hl
        exact absurd (hhv.trans this) (lt_irrefl h)
      · rintro ⟨l, hl2, hlv⟩
        rw [hl] at hl2
        injection hl2 with h2
        exact absurd hlv (h2 ▸ lt_irrefl v)
  · rintro ⟨hh, hl⟩
    rw [determine_status_normal_iff]
    constructor
    · rintro ⟨h, hh2, _⟩
      rw [hh] at hh2
      exact Option.noConfusion hh2
    · rintro ⟨l, hl2, _⟩
      rw [hl] at hl2
      exact Option.noConfusion hl2

/-- C3 witness: a value exactly equal to the heart-rate high threshold
classifies as `normal`. -/
theorem determine_status_spec_witness :
    highThresholdOf "heart_rate" = some 100 ∧
    (determine_status "heart_rate" 100).1 = "normal" :=
  ⟨by decide, (determine_status_spec "heart_rate" 100).2.2.2.1 (Or.inl (by decide))⟩

end VitalsApp
